import Mathlib

/-!
Verification of the `ptltectl` command-line controller for the Patlite
LR6-USB signal tower.  The definitions below are a shallow embedding of
`src/main.rs`: `u8` values are modelled as `Nat` (with explicit `% 256`
wherever a Rust shift could wrap), fallible functions return `Except`,
and the single side-effecting step (`send_report`) is factored out so
that the encoder (`encode`) is the pure part of `run`.
-/

namespace Ptltectl

/-! ## Constants (from the top of `main.rs`) -/

def REPORT_LEN : Nat := 8

def BUSY_RETRY_ATTEMPTS : Nat := 20

def COMMAND_VERSION : Nat := 0x00

def COMMAND_ID : Nat := 0x00

def COLOR_RED : Nat := 0

def COLOR_YELLOW : Nat := 1

def COLOR_GREEN : Nat := 2

def COLOR_BLUE : Nat := 3

def COLOR_WHITE : Nat := 4

def LED_KEEP : Nat := 0x0F

def LED_OFF : Nat := 0x00

def LED_KEEP_PAIR : Nat := ((LED_KEEP <<< 4) % 256) ||| LED_KEEP

def LED_KEEP_HIGH : Nat := (LED_KEEP <<< 4) % 256

def BUZZER_KEEP : Nat := 0x0F

def BUZZER_OFF : Nat := 0x00

def BUZZER_PITCH_DEFAULT_A : Nat := 0x0E

def BUZZER_PITCH_DEFAULT_B : Nat := 0x0F

def PITCH_OFF : Nat := 0x00

/-! ## Error taxonomy -/

/-- The subset of `rusb::Error` variants the program distinguishes: `Busy` is
the only one treated specially (retried); everything else is fatal. -/
inductive UsbError where
  | Busy
  | Access
  | NoDevice
  | NotFound
  | Io
  | Other
  deriving DecidableEq, Repr

/-- `ControlError` from `main.rs`. -/
inductive ControlError where
  | DeviceNotFound
  | InvalidArg (msg : String)
  | Usb (err : UsbError)
  | ShortWrite
  deriving DecidableEq, Repr

deriving instance DecidableEq for Except

/-! ## Command data model (the `Command` subcommand enum) -/

/-- The five CLI command variants. Numeric fields are `u8` values modelled
as `Nat`. -/
inductive Command where
  | Light (color state : Nat)
  | Tower (red yellow green blue white : Nat)
  | Buzzer (pattern limit : Nat) (pitch_a pitch_b : Option Nat)
  | Reset
  | Report (bytes : List Nat)
  deriving DecidableEq, Repr

/-! ## Encoder (`nibble`, `assemble_leds`, `build_report`, pure part of `run`) -/

/-- `fn nibble(value: u8) -> u8 { value & 0x0F }`. -/
def nibble (value : Nat) : Nat := value &&& 0x0F

/-- `fn assemble_leds(color: u8, state: u8) -> ControlResult<(u8, u8, u8)>`.
The Rust `match color` over the five `COLOR_*` constants is rendered as an
equality chain; the catch-all arm is the final `else`. -/
def assemble_leds (color state : Nat) : Except ControlError (Nat × Nat × Nat) :=
  let state := nibble state
  let keep := LED_KEEP_PAIR
  if color = COLOR_RED then
    Except.ok (((state <<< 4) % 256) ||| LED_KEEP, keep, LED_KEEP_HIGH)
  else if color = COLOR_YELLOW then
    Except.ok ((((LED_KEEP <<< 4) % 256) ||| state, keep, LED_KEEP_HIGH))
  else if color = COLOR_GREEN then
    Except.ok ((keep, ((state <<< 4) % 256) ||| LED_KEEP, LED_KEEP_HIGH))
  else if color = COLOR_BLUE then
    Except.ok ((keep, ((LED_KEEP <<< 4) % 256) ||| state, LED_KEEP_HIGH))
  else if color = COLOR_WHITE then
    Except.ok ((keep, keep, (state <<< 4) % 256))
  else
    Except.error (ControlError.InvalidArg "color out of range")

/-- `fn build_report(buzzer, pitch, led_ry, led_gb, led_w) -> [u8; 8]`. -/
def build_report (buzzer pitch led_ry led_gb led_w : Nat) : List Nat :=
  [COMMAND_VERSION, COMMAND_ID, buzzer, pitch, led_ry, led_gb, led_w, 0]

/-- The pure part of `fn run(cli: Cli)`: everything `run` computes before the
single call to `send_report`.  `Except.ok rep` means `run` reaches
`send_report(rep)`; `Except.error e` means `run` returns `Err(e)` before any
transport operation. -/
def encode : Command → Except ControlError (List Nat)
  | Command.Light color state =>
    match assemble_leds color state with
    | Except.ok (led_ry, led_gb, led_w) =>
      Except.ok (build_report BUZZER_KEEP 0 led_ry led_gb led_w)
    | Except.error e => Except.error e
  | Command.Tower red yellow green blue white =>
    let led_ry := ((nibble red <<< 4) % 256) ||| nibble yellow
    let led_gb := ((nibble green <<< 4) % 256) ||| nibble blue
    let led_w := (nibble white <<< 4) % 256
    Except.ok (build_report BUZZER_KEEP 0 led_ry led_gb led_w)
  | Command.Buzzer pattern limit pitch_a pitch_b =>
    match (match pitch_a, pitch_b with
           | some a, some b => Except.ok (a, b)
           | none, none => Except.ok (BUZZER_PITCH_DEFAULT_A, BUZZER_PITCH_DEFAULT_B)
           | _, _ => Except.error
               (ControlError.InvalidArg "pitch values must include both A and B nibbles")) with
    | Except.error e => Except.error e
    | Except.ok (pa, pb) =>
      let buzzer := ((nibble limit <<< 4) % 256) ||| nibble pattern
      let pitch := ((nibble pa <<< 4) % 256) ||| nibble pb
      Except.ok (build_report buzzer pitch LED_KEEP_PAIR LED_KEEP_PAIR LED_KEEP_HIGH)
  | Command.Reset =>
    Except.ok (build_report BUZZER_OFF PITCH_OFF LED_OFF LED_OFF LED_OFF)
  | Command.Report bytes =>
    if bytes.length ≠ REPORT_LEN then
      Except.error (ControlError.InvalidArg "report must be 8 bytes")
    else
      Except.ok bytes

/-- The report handed to the transport, if any: `run` calls `send_report`
exactly on the `Except.ok` branch of `encode`, so `none` means no bytes were
written to the device. -/
def sentReport (c : Command) : Option (List Nat) := (encode c).toOption

/-! ## Interface claimer (`claim_interface_with_retry`)

The `retry` crate with `Fixed::from_millis(50).take(BUSY_RETRY_ATTEMPTS)`
runs the operation once, and on each `Retry` outcome consumes one delay from
the iterator before trying again; when the iterator is exhausted it returns
the last retryable error.  `outcomes n` models the result of the `n`-th call
to `handle.claim_interface` (0-indexed); `remaining` models the delays left
in the iterator. -/

def retryLoop (outcomes : Nat → Except UsbError Unit) (attempt remaining : Nat) :
    Except UsbError Unit :=
  match outcomes attempt with
  | Except.ok _ => Except.ok ()
  | Except.error UsbError.Busy =>
    match remaining with
    | 0 => Except.error UsbError.Busy
    | Nat.succ n => retryLoop outcomes (attempt + 1) n
  | Except.error e => Except.error e
termination_by remaining

/-- `fn claim_interface_with_retry`: the retry loop with
`BUSY_RETRY_ATTEMPTS` delays available, its error mapped into
`ControlError` via the `From<rusb::Error>` impl. -/
def claim_interface_with_retry (outcomes : Nat → Except UsbError Unit) :
    Except ControlError Unit :=
  (retryLoop outcomes 0 BUSY_RETRY_ATTEMPTS).mapError ControlError.Usb

/-! ## Value parsers (`parse_u8_any`, aliases, `parse_color`, ...)

Rust's `str::to_ascii_lowercase` lowers only the ASCII letters A-Z;
`u8::from_str_radix` / `str::parse::<u8>` accept an optional leading sign,
then digits of the radix, with checked (non-wrapping) accumulation.  Error
message strings are modelled without the surrounding single quotes of the
Rust `format!` literals; no theorem depends on parser message text. -/

/-- ASCII-only lowering of one character, as in `char::to_ascii_lowercase`. -/
def asciiLowerChar (c : Char) : Char :=
  if 65 ≤ c.toNat ∧ c.toNat ≤ 90 then Char.ofNat (c.toNat + 32) else c

/-- `str::to_ascii_lowercase`. -/
def to_ascii_lowercase (s : String) : String :=
  String.mk (s.data.map asciiLowerChar)

/-- `char::to_digit(radix)`: digit value of `c` in the given radix. -/
def char_to_digit (c : Char) (radix : Nat) : Option Nat :=
  let v : Option Nat :=
    if 48 ≤ c.toNat ∧ c.toNat ≤ 57 then some (c.toNat - 48)
    else if 97 ≤ c.toNat ∧ c.toNat ≤ 122 then some (c.toNat - 97 + 10)
    else if 65 ≤ c.toNat ∧ c.toNat ≤ 90 then some (c.toNat - 65 + 10)
    else none
  match v with
  | some d => if d < radix then some d else none
  | none => none

/-- Digit accumulation of `u8::from_str_radix` for a non-negative number:
`checked_mul` then `checked_add`, failing past 255. -/
def accum_u8 (radix : Nat) : List Char → Nat → Option Nat
  | [], acc => some acc
  | c :: rest, acc =>
    match char_to_digit c radix with
    | none => none
    | some d =>
      let next := acc * radix + d
      if next ≤ 255 then accum_u8 radix rest next else none

/-- Digit accumulation after a leading `-` sign: `checked_mul` then
`checked_sub`, which for an unsigned type only ever succeeds on zero. -/
def accum_u8_neg (radix : Nat) : List Char → Nat → Option Nat
  | [], acc => some acc
  | c :: rest, acc =>
    match char_to_digit c radix with
    | none => none
    | some d =>
      let mul := acc * radix
      if mul ≤ 255 ∧ d ≤ mul then accum_u8_neg radix rest (mul - d) else none

/-- `u8::from_str_radix(s, radix)` (also the semantics of `s.parse::<u8>()`
at radix 10): optional single leading sign, then at least one digit. -/
def from_str_radix_u8 (s : String) (radix : Nat) : Option Nat :=
  match s.data with
  | [] => none
  | c :: rest =>
    let signDigits : Bool × List Char :=
      if c = '+' then (false, rest)
      else if c = '-' then (true, rest)
      else (false, c :: rest)
    match signDigits with
    | (_, []) => none
    | (false, digits) => accum_u8 radix digits 0
    | (true, digits) => accum_u8_neg radix digits 0

/-- `fn parse_u8_any(value: &str) -> Result<u8, String>`: a `0x`/`0X` prefix
selects hexadecimal, otherwise decimal. -/
def parse_u8_any (value : String) : Except String Nat :=
  match value.data with
  | '0' :: 'x' :: hexChars =>
    match from_str_radix_u8 (String.mk hexChars) 16 with
    | some n => Except.ok n
    | none => Except.error ("invalid hex value " ++ value)
  | '0' :: 'X' :: hexChars =>
    match from_str_radix_u8 (String.mk hexChars) 16 with
    | some n => Except.ok n
    | none => Except.error ("invalid hex value " ++ value)
  | _ =>
    match from_str_radix_u8 value 10 with
    | some n => Except.ok n
    | none => Except.error ("invalid number " ++ value)

/-- `fn color_alias(value: &str) -> Option<u8>`. -/
def color_alias (value : String) : Option Nat :=
  let lower := to_ascii_lowercase value
  if lower = "red" then some COLOR_RED
  else if lower = "yellow" then some COLOR_YELLOW
  else if lower = "green" then some COLOR_GREEN
  else if lower = "blue" then some COLOR_BLUE
  else if lower = "white" then some COLOR_WHITE
  else none

/-- `fn led_state_alias(value: &str) -> Option<u8>`. -/
def led_state_alias (value : String) : Option Nat :=
  let lower := to_ascii_lowercase value
  if lower = "led_off" ∨ lower = "off" then some 0x0
  else if lower = "led_on" ∨ lower = "on" ∨ lower = "solid" then some 0x1
  else if lower = "led_pattern1" ∨ lower = "pattern1" then some 0x2
  else if lower = "led_pattern2" ∨ lower = "pattern2" then some 0x3
  else if lower = "led_pattern3" ∨ lower = "pattern3" then some 0x4
  else if lower = "led_pattern4" ∨ lower = "pattern4" then some 0x5
  else if lower = "led_keep" ∨ lower = "keep" then some LED_KEEP
  else none

/-- `fn buzzer_alias(value: &str) -> Option<u8>`. -/
def buzzer_alias (value : String) : Option Nat :=
  let lower := to_ascii_lowercase value
  if lower = "buzz_off" ∨ lower = "buzzer_off" ∨ lower = "off" then some 0x0
  else if lower = "buzz_on" ∨ lower = "buzzer_on" ∨ lower = "on" then some 0x1
  else if lower = "buzz_pattern1" ∨ lower = "pattern1" then some 0x2
  else if lower = "buzz_pattern2" ∨ lower = "pattern2" then some 0x3
  else if lower = "buzz_pattern3" ∨ lower = "pattern3" then some 0x4
  else if lower = "buzz_pattern4" ∨ lower = "pattern4" then some 0x5
  else if lower = "buzzer_keep" ∨ lower = "keep" then some LED_KEEP
  else none

/-- `fn parse_color(value: &str) -> Result<u8, String>`. -/
def parse_color (value : String) : Except String Nat :=
  match color_alias value with
  | some a => Except.ok a
  | none =>
    match parse_u8_any value with
    | Except.error _ => Except.error ("unknown color " ++ value)
    | Except.ok num =>
      if num ≤ COLOR_WHITE then Except.ok num
      else Except.error ("color index out of range (0-4)")

/-- `fn parse_nibble(value: &str) -> Result<u8, String>`. -/
def parse_nibble (value : String) : Except String Nat :=
  match parse_u8_any value with
  | Except.error _ => Except.error ("invalid nibble " ++ value)
  | Except.ok num =>
    if num ≤ 0x0F then Except.ok num
    else Except.error ("nibble out of range (0x0-0xF)")

/-- `fn parse_led_state(value: &str) -> Result<u8, String>`. -/
def parse_led_state (value : String) : Except String Nat :=
  match led_state_alias value with
  | some a => Except.ok a
  | none => parse_nibble value

/-- `fn parse_buzzer_pattern(value: &str) -> Result<u8, String>`. -/
def parse_buzzer_pattern (value : String) : Except String Nat :=
  match buzzer_alias value with
  | some a => Except.ok a
  | none => parse_nibble value

/-- `fn parse_byte(value: &str) -> Result<u8, String>`. -/
def parse_byte (value : String) : Except String Nat :=
  match parse_u8_any value with
  | Except.error _ => Except.error ("invalid byte " ++ value)
  | Except.ok num => Except.ok num

/-! ## Theorems -/

/-- C1 (counterexample): the claim says the buzzer byte of every `Light` and
`Tower` report is `0xFF`; but `run` passes the nibble constant
`BUZZER_KEEP = 0x0F` as the whole buzzer byte, so `Tower(0,1,2,3,4)` is
encoded with byte 2 equal to `0x0F`, not `0xFF`. -/
theorem C1_counterexample :
    ¬ (∀ rep, encode (Command.Tower 0 1 2 3 4) = Except.ok rep →
         rep.getD 2 0 = 0xFF) := by
  intro h
  have h2 := h [0x00, 0x00, 0x0F, 0x00, 0x01, 0x23, 0x40, 0x00] (by decide)
  exact absurd h2 (by decide)

/-- C1 (amended): for every `Light(color, state)` and `Tower(r,y,g,b,w)`
command, the encoded report's buzzer byte (byte 2) is `0x0F` (high/limit
nibble `0`, low/pattern nibble KEEP) and the pitch byte (byte 3) is `0x00`. -/
theorem C1_light_tower_buzzer_pitch_bytes
    (color state red yellow green blue white : Nat) :
    (∀ rep, encode (Command.Light color state) = Except.ok rep →
        rep.getD 2 0 = 0x0F ∧ rep.getD 3 0 = 0x00)
  ∧ (∀ rep, encode (Command.Tower red yellow green blue white) = Except.ok rep →
        rep.getD 2 0 = 0x0F ∧ rep.getD 3 0 = 0x00) := by
  constructor
  · intro rep h
    cases hA : assemble_leds color state with
    | ok t =>
      obtain ⟨ry, gb, w⟩ := t
      simp only [encode, hA] at h
      cases h
      exact ⟨rfl, rfl⟩
    | error e => simp [encode, hA] at h
  · intro rep h
    simp only [encode] at h
    cases h
    exact ⟨rfl, rfl⟩

/-- C1 (witness): the amended theorem applied to `Light(red, 1)`. -/
theorem C1_witness :
    ([0, 0, 0x0F, 0, 0x1F, 0xFF, 0xF0, 0] : List Nat).getD 2 0 = 0x0F ∧
    ([0, 0, 0x0F, 0, 0x1F, 0xFF, 0xF0, 0] : List Nat).getD 3 0 = 0x00 :=
  (C1_light_tower_buzzer_pitch_bytes 0 1 0 0 0 0 0).1
    [0, 0, 0x0F, 0, 0x1F, 0xFF, 0xF0, 0] (by decide)

/-- C2 (counterexample): the claim says all three LED bytes of a pitch-less
`Buzzer` report equal KEEP; bytes 4 and 5 are the KEEP pair `0xFF`, but the
white byte (byte 6) is `LED_KEEP_HIGH = 0xF0` (its low nibble has no LED),
so it is not `0xFF`. -/
theorem C2_counterexample :
    ¬ (∀ rep, encode (Command.Buzzer 2 5 none none) = Except.ok rep →
         rep.getD 4 0 = 0xFF ∧ rep.getD 5 0 = 0xFF ∧ rep.getD 6 0 = 0xFF) := by
  intro h
  have h2 := h [0x00, 0x00, 0x52, 0xEF, 0xFF, 0xFF, 0xF0, 0x00] (by decide)
  exact absurd h2.2.2 (by decide)

/-- C2 (amended): for every `Buzzer(pattern, limit)` command with both
pitches omitted and validated nibble arguments, the report has buzzer byte
`(limit<<4)|pattern`, pitch byte `(0x0E<<4)|0x0F = 0xEF`, LED bytes 4 and 5
equal to the KEEP pair `0xFF`, and LED byte 6 equal to `0xF0` (high nibble
KEEP, low nibble 0); in particular `Buzzer(2,5)` gives buzzer byte `0x52`. -/
theorem C2_buzzer_default_pitch (pattern : Nat) (hp : pattern < 16)
    (limit : Nat) (hl : limit < 16) :
    encode (Command.Buzzer pattern limit none none) =
      Except.ok [0x00, 0x00, (limit <<< 4) ||| pattern, 0xEF, 0xFF, 0xFF, 0xF0, 0x00] := by
  revert limit hl
  revert pattern hp
  decide

/-- C2 (witness): the amended theorem at `Buzzer(pattern=2, limit=5)`,
whose buzzer byte is `0x52`. -/
theorem C2_witness :
    encode (Command.Buzzer 2 5 none none) =
      Except.ok [0x00, 0x00, 0x52, 0xEF, 0xFF, 0xFF, 0xF0, 0x00] :=
  C2_buzzer_default_pitch 2 (by decide) 5 (by decide)

/-- C5: `nibble` is the identity on 0..=15 and masks 16..=255 down to the
low four bits (`n & 0x0F`, i.e. `n mod 16`). -/
theorem C5_nibble_mask (n : Nat) :
    (n ≤ 15 → nibble n = n)
  ∧ (16 ≤ n → n ≤ 255 → nibble n = n &&& 0x0F ∧ nibble n = n % 16) := by
  have key : ∀ m, m < 256 → nibble m = m % 16 := by
    set_option maxRecDepth 4096 in decide
  constructor
  · intro h
    rw [key n (by omega), Nat.mod_eq_of_lt (by omega)]
  · intro h16 h255
    exact ⟨rfl, key n (by omega)⟩

/-- C5 (witness): `nibble` evaluated at 3 (in range) and 0x20 (masked). -/
theorem C5_witness :
    nibble 3 = 3 ∧ (nibble 0x20 = 0x20 &&& 0x0F ∧ nibble 0x20 = 0x20 % 16) :=
  ⟨(C5_nibble_mask 3).1 (by decide), (C5_nibble_mask 0x20).2 (by decide) (by decide)⟩

/-- C6: `RawReport` fails with `InvalidArg` exactly when the byte count is
not 8; with exactly 8 bytes the report passed to the transport is the input
list verbatim. -/
theorem C6_raw_report_verbatim (bytes : List Nat) :
    ((∃ msg, encode (Command.Report bytes) = Except.error (ControlError.InvalidArg msg)) ↔
      bytes.length ≠ 8)
  ∧ (bytes.length = 8 → encode (Command.Report bytes) = Except.ok bytes) := by
  by_cases h : bytes.length = 8
  · refine ⟨⟨?_, ?_⟩, ?_⟩
    · rintro ⟨msg, hm⟩
      simp [encode, REPORT_LEN, h] at hm
    · intro hne
      exact absurd h hne
    · intro _
      simp [encode, REPORT_LEN, h]
  · refine ⟨⟨?_, ?_⟩, ?_⟩
    · intro _
      simpa [REPORT_LEN] using h
    · intro _
      exact ⟨"report must be 8 bytes", by simp [encode, REPORT_LEN, h]⟩
    · intro h8
      exact absurd h8 h

/-- C6 (witness): the second part of the theorem at a concrete 8-byte list. -/
theorem C6_witness :
    encode (Command.Report [1, 2, 3, 4, 5, 6, 7, 8]) =
      Except.ok [1, 2, 3, 4, 5, 6, 7, 8] :=
  (C6_raw_report_verbatim [1, 2, 3, 4, 5, 6, 7, 8]).2 (by decide)

/-- C7: a `Buzzer` command with exactly one pitch supplied fails with the
`InvalidArg` pairing error, and no report reaches the transport (`run`
returns before `send_report` is called). -/
theorem C7_unpaired_pitch (pattern limit a b : Nat) :
    (encode (Command.Buzzer pattern limit (some a) none) =
        Except.error
          (ControlError.InvalidArg "pitch values must include both A and B nibbles")
      ∧ sentReport (Command.Buzzer pattern limit (some a) none) = none)
  ∧ (encode (Command.Buzzer pattern limit none (some b)) =
        Except.error
          (ControlError.InvalidArg "pitch values must include both A and B nibbles")
      ∧ sentReport (Command.Buzzer pattern limit none (some b)) = none) :=
  ⟨⟨rfl, rfl⟩, ⟨rfl, rfl⟩⟩

/-- C3: `Light` LED mapping, stated at the nibble level.  For a validated
state nibble, the selected color's nibble of the returned LED bytes decodes
back to `state`, every other LED nibble of bytes 4 and 5 is KEEP, and the
low nibble of the white byte is 0. -/
theorem C3_light_led_mapping (state : Nat) (hs : state < 16) :
    (∀ ry gb w, assemble_leds COLOR_RED state = Except.ok (ry, gb, w) →
        ry >>> 4 = state ∧ ry &&& 0xF = LED_KEEP ∧ gb = LED_KEEP_PAIR ∧ w = LED_KEEP_HIGH)
  ∧ (∀ ry gb w, assemble_leds COLOR_YELLOW state = Except.ok (ry, gb, w) →
        ry &&& 0xF = state ∧ ry >>> 4 = LED_KEEP ∧ gb = LED_KEEP_PAIR ∧ w = LED_KEEP_HIGH)
  ∧ (∀ ry gb w, assemble_leds COLOR_GREEN state = Except.ok (ry, gb, w) →
        gb >>> 4 = state ∧ gb &&& 0xF = LED_KEEP ∧ ry = LED_KEEP_PAIR ∧ w = LED_KEEP_HIGH)
  ∧ (∀ ry gb w, assemble_leds COLOR_BLUE state = Except.ok (ry, gb, w) →
        gb &&& 0xF = state ∧ gb >>> 4 = LED_KEEP ∧ ry = LED_KEEP_PAIR ∧ w = LED_KEEP_HIGH)
  ∧ (∀ ry gb w, assemble_leds COLOR_WHITE state = Except.ok (ry, gb, w) →
        w >>> 4 = state ∧ w &&& 0xF = 0 ∧ ry = LED_KEEP_PAIR ∧ gb = LED_KEEP_PAIR) := by
  refine ⟨?_, ?_, ?_, ?_, ?_⟩
  all_goals
    intro ry gb w h
    injection h with h1
    injection h1 with h2 h3
    injection h3 with h4 h5
    subst h2
    subst h4
    subst h5
    interval_cases state <;> decide

/-- C3 (witness): the red conjunct at `state = 1`, where
`assemble_leds` returns `(0x1F, 0xFF, 0xF0)`. -/
theorem C3_witness :
    (0x1F : Nat) >>> 4 = 1 ∧ (0x1F : Nat) &&& 0xF = LED_KEEP ∧
    (0xFF : Nat) = LED_KEEP_PAIR ∧ (0xF0 : Nat) = LED_KEEP_HIGH :=
  (C3_light_led_mapping 1 (by decide)).1 0x1F 0xFF 0xF0 (by decide)

/-- Helper for C4: a run of `k` Busy outcomes advances the retry loop by
`k` attempts while consuming `k` of the remaining delays. -/
theorem retryLoop_skip_busy (outcomes : Nat → Except UsbError Unit) :
    ∀ k attempt remaining, k ≤ remaining →
      (∀ i, i < k → outcomes (attempt + i) = Except.error UsbError.Busy) →
      retryLoop outcomes attempt remaining =
        retryLoop outcomes (attempt + k) (remaining - k) := by
  intro k
  induction k with
  | zero => intro attempt remaining _ _; simp
  | succ n ih =>
    intro attempt remaining hk hbusy
    have h0 : outcomes attempt = Except.error UsbError.Busy := by
      simpa using hbusy 0 (Nat.succ_pos n)
    obtain ⟨m, rfl⟩ : ∃ m, remaining = m + 1 := ⟨remaining - 1, by omega⟩
    rw [retryLoop, h0]
    have step : retryLoop outcomes (attempt + 1) m =
        retryLoop outcomes (attempt + 1 + n) (m - n) := by
      refine ih (attempt + 1) m (by omega) ?_
      intro i hi
      have := hbusy (i + 1) (by omega)
      simpa [Nat.add_assoc, Nat.add_comm 1 i] using this
    rw [step]
    have e1 : attempt + 1 + n = attempt + (n + 1) := by omega
    have e2 : m - n = m + 1 - (n + 1) := by omega
    rw [e1, e2]

/-- Helper for C4: a successful claim attempt stops the loop at once. -/
theorem retryLoop_at_ok (outcomes : Nat → Except UsbError Unit) (attempt remaining : Nat)
    (h : outcomes attempt = Except.ok ()) :
    retryLoop outcomes attempt remaining = Except.ok () := by
  cases remaining with
  | zero => rw [retryLoop, h]
  | succ n => rw [retryLoop, h]

/-- Helper for C4: a Busy attempt with no delays left fails with Busy. -/
theorem retryLoop_busy_exhausted (outcomes : Nat → Except UsbError Unit) (attempt : Nat)
    (h : outcomes attempt = Except.error UsbError.Busy) :
    retryLoop outcomes attempt 0 = Except.error UsbError.Busy := by
  rw [retryLoop, h]

/-- Helper for C4: a non-busy error stops the loop at once with that error. -/
theorem retryLoop_at_error (outcomes : Nat → Except UsbError Unit)
    (attempt remaining : Nat) (e : UsbError) (he : e ≠ UsbError.Busy)
    (h : outcomes attempt = Except.error e) :
    retryLoop outcomes attempt remaining = Except.error e := by
  cases remaining with
  | zero =>
    rw [retryLoop, h]
    cases e with
    | Busy => exact absurd rfl he
    | Access => rfl
    | NoDevice => rfl
    | NotFound => rfl
    | Io => rfl
    | Other => rfl
  | succ n =>
    rw [retryLoop, h]
    cases e with
    | Busy => exact absurd rfl he
    | Access => rfl
    | NoDevice => rfl
    | NotFound => rfl
    | Io => rfl
    | Other => rfl

/-- C4: viewing the claimer as a function of the per-attempt outcome
sequence: a Busy run shorter than `BUSY_RETRY_ATTEMPTS` followed by a
success acquires the interface; an all-Busy sequence fails carrying the
busy error; a non-busy error after any Busy run fails with that error
immediately — the result does not depend on outcomes after it, since
`outcomes` is arbitrary beyond position `k`. -/
theorem C4_claimer_outcomes (outcomes : Nat → Except UsbError Unit) (k : Nat) (e : UsbError) :
    (k < BUSY_RETRY_ATTEMPTS →
       (∀ i, i < k → outcomes i = Except.error UsbError.Busy) →
       outcomes k = Except.ok () →
       claim_interface_with_retry outcomes = Except.ok ())
  ∧ ((∀ i, i ≤ BUSY_RETRY_ATTEMPTS → outcomes i = Except.error UsbError.Busy) →
       claim_interface_with_retry outcomes =
         Except.error (ControlError.Usb UsbError.Busy))
  ∧ (k ≤ BUSY_RETRY_ATTEMPTS → e ≠ UsbError.Busy →
       (∀ i, i < k → outcomes i = Except.error UsbError.Busy) →
       outcomes k = Except.error e →
       claim_interface_with_retry outcomes = Except.error (ControlError.Usb e)) := by
  refine ⟨?_, ?_, ?_⟩
  · intro hk hbusy hok
    unfold claim_interface_with_retry
    rw [retryLoop_skip_busy outcomes k 0 BUSY_RETRY_ATTEMPTS (Nat.le_of_lt hk)
      (by simpa using hbusy)]
    rw [Nat.zero_add, retryLoop_at_ok outcomes k _ hok]
    rfl
  · intro hbusy
    unfold claim_interface_with_retry
    rw [retryLoop_skip_busy outcomes BUSY_RETRY_ATTEMPTS 0 BUSY_RETRY_ATTEMPTS
      (Nat.le_refl _)
      (by intro i hi; simpa using hbusy i (Nat.le_of_lt hi))]
    rw [Nat.zero_add, Nat.sub_self,
      retryLoop_busy_exhausted outcomes BUSY_RETRY_ATTEMPTS
        (hbusy BUSY_RETRY_ATTEMPTS (Nat.le_refl _))]
    rfl
  · intro hk he hbusy herr
    unfold claim_interface_with_retry
    rw [retryLoop_skip_busy outcomes k 0 BUSY_RETRY_ATTEMPTS hk (by simpa using hbusy)]
    rw [Nat.zero_add, retryLoop_at_error outcomes k _ e he herr]
    rfl

/-- C4 (witness): three Busy attempts followed by success acquire the
interface. -/
theorem C4_witness :
    claim_interface_with_retry
        (fun i => if i < 3 then Except.error UsbError.Busy else Except.ok ()) =
      Except.ok () :=
  (C4_claimer_outcomes
      (fun i => if i < 3 then Except.error UsbError.Busy else Except.ok ())
      3 UsbError.Busy).1
    (by decide) (fun i hi => by simp [hi]) (by simp)

/-- C8: alias resolution is invariant under ASCII case — tokens with the
same ASCII lowering resolve identically in all three alias tables — and
every documented alias maps to its documented numeric value through the
corresponding parser. -/
theorem C8_alias_case_insensitive (t u : String) :
    (to_ascii_lowercase t = to_ascii_lowercase u →
        color_alias t = color_alias u
      ∧ led_state_alias t = led_state_alias u
      ∧ buzzer_alias t = buzzer_alias u)
  ∧ (parse_color "red" = Except.ok 0 ∧ parse_color "yellow" = Except.ok 1
      ∧ parse_color "green" = Except.ok 2 ∧ parse_color "blue" = Except.ok 3
      ∧ parse_color "white" = Except.ok 4)
  ∧ (parse_led_state "led_off" = Except.ok 0x0
      ∧ parse_led_state "led_on" = Except.ok 0x1
      ∧ parse_led_state "led_pattern1" = Except.ok 0x2
      ∧ parse_led_state "led_pattern2" = Except.ok 0x3
      ∧ parse_led_state "led_pattern3" = Except.ok 0x4
      ∧ parse_led_state "led_pattern4" = Except.ok 0x5
      ∧ parse_led_state "led_keep" = Except.ok 0x0F)
  ∧ (parse_buzzer_pattern "buzz_off" = Except.ok 0x0
      ∧ parse_buzzer_pattern "buzz_on" = Except.ok 0x1
      ∧ parse_buzzer_pattern "buzz_pattern1" = Except.ok 0x2
      ∧ parse_buzzer_pattern "buzz_pattern2" = Except.ok 0x3
      ∧ parse_buzzer_pattern "buzz_pattern3" = Except.ok 0x4
      ∧ parse_buzzer_pattern "buzz_pattern4" = Except.ok 0x5
      ∧ parse_buzzer_pattern "buzzer_keep" = Except.ok 0x0F) := by
  refine ⟨?_, by decide, by decide, by decide⟩
  intro h
  refine ⟨?_, ?_, ?_⟩
  · simp only [color_alias, h]
  · simp only [led_state_alias, h]
  · simp only [buzzer_alias, h]

/-- C8 (witness): the case-invariance conjunct at the pair `"RED"`/`"red"`. -/
theorem C8_witness :
    color_alias "RED" = color_alias "red"
  ∧ led_state_alias "RED" = led_state_alias "red"
  ∧ buzzer_alias "RED" = buzzer_alias "red" :=
  (C8_alias_case_insensitive "RED" "red").1 (by decide)

/-- C9 (counterexample): the claim extends the byte 0/1/7 invariant to
`RawReport`, but raw bytes are sent verbatim: `report 1 0 0 0 0 0 0 7`
sends a report whose bytes 0 and 7 are nonzero. -/
theorem C9_counterexample :
    encode (Command.Report [1, 0, 0, 0, 0, 0, 0, 7]) =
      Except.ok [1, 0, 0, 0, 0, 0, 0, 7]
  ∧ ¬ (([1, 0, 0, 0, 0, 0, 0, 7] : List Nat).getD 0 0 = 0
       ∧ ([1, 0, 0, 0, 0, 0, 0, 7] : List Nat).getD 7 0 = 0) :=
  ⟨by decide, by decide⟩

/-- C9 (amended): for the four structured variants (`Light`, `Tower`,
`Buzzer`, `Reset`) — every command except `RawReport` — any report reaching
the transport has version byte 0, commandId byte 0 and reserved byte 0. -/
theorem C9_structured_reports (c : Command) (rep : List Nat)
    (hnr : ∀ bytes, c ≠ Command.Report bytes)
    (h : encode c = Except.ok rep) :
    rep.getD 0 0 = 0 ∧ rep.getD 1 0 = 0 ∧ rep.getD 7 0 = 0 := by
  cases c with
  | Light color state =>
    cases hA : assemble_leds color state with
    | ok t =>
      obtain ⟨ry, gb, w⟩ := t
      simp only [encode, hA] at h
      cases h
      exact ⟨rfl, rfl, rfl⟩
    | error e => simp [encode, hA] at h
  | Tower red yellow green blue white =>
    simp only [encode] at h
    cases h
    exact ⟨rfl, rfl, rfl⟩
  | Buzzer pattern limit pa pb =>
    cases pa with
    | some a =>
      cases pb with
      | some b =>
        simp only [encode] at h
        cases h
        exact ⟨rfl, rfl, rfl⟩
      | none => simp [encode] at h
    | none =>
      cases pb with
      | some b => simp [encode] at h
      | none =>
        simp only [encode] at h
        cases h
        exact ⟨rfl, rfl, rfl⟩
  | Reset =>
    simp only [encode] at h
    cases h
    exact ⟨rfl, rfl, rfl⟩
  | Report bytes => exact absurd rfl (hnr bytes)

/-- C9 (witness): the amended theorem at `Reset`, whose report is all
zeros. -/
theorem C9_witness :
    ([0, 0, 0, 0, 0, 0, 0, 0] : List Nat).getD 0 0 = 0 ∧
    ([0, 0, 0, 0, 0, 0, 0, 0] : List Nat).getD 1 0 = 0 ∧
    ([0, 0, 0, 0, 0, 0, 0, 0] : List Nat).getD 7 0 = 0 :=
  C9_structured_reports Command.Reset [0, 0, 0, 0, 0, 0, 0, 0]
    (fun _ h => Command.noConfusion h) (by decide)

/-- Helper for C10: the color alias table only produces indices 0..4. -/
theorem color_alias_le_four (tok : String) (a : Nat)
    (h : color_alias tok = some a) : a ≤ 4 := by
  simp only [color_alias, COLOR_RED, COLOR_YELLOW, COLOR_GREEN, COLOR_BLUE,
    COLOR_WHITE] at h
  split_ifs at h
  all_goals first
    | exact Option.noConfusion h
    | (injection h with h2; omega)

/-- C10: `assemble_leds` is total and defensive on its color argument —
every color 0..4 succeeds, every larger color yields the `InvalidArg`
error (no panic path exists in the model) — while `parse_color` never
produces an index above 4, making the error branch unreachable from the
command line. -/
theorem C10_assemble_leds_total (color state : Nat) :
    (color ≤ 4 → ∃ t, assemble_leds color state = Except.ok t)
  ∧ (5 ≤ color → assemble_leds color state =
        Except.error (ControlError.InvalidArg "color out of range"))
  ∧ (∀ tok n, parse_color tok = Except.ok n → n ≤ 4) := by
  refine ⟨?_, ?_, ?_⟩
  · intro h
    interval_cases color <;> exact ⟨_, rfl⟩
  · intro h
    simp only [assemble_leds, COLOR_RED, COLOR_YELLOW, COLOR_GREEN, COLOR_BLUE, COLOR_WHITE]
    split_ifs with h1 h2 h3 h4 h5 <;> first | omega | rfl
  · intro tok n h
    simp only [parse_color] at h
    cases hal : color_alias tok with
    | some a =>
      rw [hal] at h
      simp only [] at h
      cases h
      exact color_alias_le_four tok n hal
    | none =>
      rw [hal] at h
      cases hp : parse_u8_any tok with
      | error e => simp [hp] at h
      | ok num =>
        simp only [hp] at h
        by_cases hn : num ≤ COLOR_WHITE
        · simp only [hn, if_pos] at h
          cases h
          simpa [COLOR_WHITE] using hn
        · simp [hn] at h

/-- C10 (witness): a valid color succeeds, color 9 hits the defensive
error branch. -/
theorem C10_witness :
    (∃ t, assemble_leds 2 7 = Except.ok t)
  ∧ assemble_leds 9 7 =
      Except.error (ControlError.InvalidArg "color out of range") :=
  ⟨(C10_assemble_leds_total 2 7).1 (by decide),
   (C10_assemble_leds_total 9 7).2.1 (by decide)⟩

end Ptltectl
